import Mathlib

/-!
Verification of `app/src/main/assets/conv.py` from neofytr/EmotionDetector.

The script is a straight-line Python program (after importing
tensorflow as tf):

  model = tf.keras.models.load_model('mobilenet_7.h5')
  converter = tf.lite.TFLiteConverter.from_keras_model(model)
  tflite_model = converter.convert()
  with open('fer_mobilenet.tflite', 'wb') as f:
      f.write(tflite_model)
  print("Model converted successfully!")

We embed it shallowly: the external world (filesystem contents, the
TensorFlow library's deserialization and conversion behaviour, and the
OS-level success or failure of opening and writing the destination file)
is a record `Env`; executing the script is a function `runScript` that
threads the filesystem state, accumulates the stdout lines, records a
trace of the observable events in program order, and stops at the first
raised exception (recorded in `err`), exactly as the unguarded Python
module body does.
-/

namespace EmotionDetector

/-- The hard-coded source model path, line 3 of conv.py. -/
def srcPath : String := "mobilenet_7.h5"

/-- The hard-coded destination path, line 8 of conv.py. -/
def destPath : String := "fer_mobilenet.tflite"

/-- The literal success message printed on line 11 of conv.py. -/
def successMsg : String := "Model converted successfully!"

/-- File contents: a byte buffer, modelled as a list of byte values. -/
abbrev Bytes := List Nat

/-- An in-memory Keras model object, opaque to the script: conv.py never
inspects it, so we model it by an abstract identifier. -/
structure Model where
  repr : Nat
deriving DecidableEq

/-- The configuration carried by a `tf.lite.TFLiteConverter`: the
quantization flags (`optimizations`), the custom-op / supported-ops
options (`supportedOps`), and input/output signature overrides. -/
structure ConverterConfig where
  optimizations : List Nat
  supportedOps : List Nat
  signatureOverrides : List (String × String)
deriving DecidableEq

/-- The defaults installed by `TFLiteConverter.from_keras_model`:
no quantization flags, no custom ops, no signature overrides. -/
def defaultConfig : ConverterConfig :=
  { optimizations := [], supportedOps := [], signatureOverrides := [] }

/-- A `tf.lite.TFLiteConverter` object: the wrapped model together with
its conversion configuration. -/
structure TFLiteConverter where
  model : Model
  config : ConverterConfig
deriving DecidableEq

/-- `tf.lite.TFLiteConverter.from_keras_model(model)` (line 5 of conv.py):
builds a converter over `model` with the library's default settings.
conv.py never mutates any attribute of the result. -/
def fromKerasModel (m : Model) : TFLiteConverter :=
  { model := m, config := defaultConfig }

/-- The external world the script runs in: the filesystem, the library's
deserialization and conversion behaviour, and the OS responses to the
destination open and write. The script itself reads no CLI arguments and
no environment variables, so `Env` is everything it can depend on. -/
structure Env where
  /-- Filesystem before the run: path to file contents, `none` if absent. -/
  fs : String → Option Bytes
  /-- `tf.keras.models.load_model` deserialization of the file bytes:
  `Except.error` models the exception raised on an invalid model file. -/
  parseModel : Bytes → Except String Model
  /-- `converter.convert()`: serializes the converter's model to the
  FlatBuffer byte format, or raises (e.g. unsupported ops). -/
  convert : TFLiteConverter → Except String Bytes
  /-- Whether `open(path, 'wb')` succeeds at the given path. -/
  openForWrite : String → Bool
  /-- Whether the single `f.write` call raises (e.g. disk full). -/
  writeRaises : Bool

/-- Observable events of a run of conv.py, in program order. -/
inductive Event where
  /-- `load_model(path)` is invoked. -/
  | loadCall (path : String)
  /-- `load_model` returned the in-memory model `m`. -/
  | loadRet (m : Model)
  /-- `converter.convert()` is invoked on converter `c`. -/
  | convertCall (c : TFLiteConverter)
  /-- `convert` returned the serialized buffer `b`. -/
  | convertRet (b : Bytes)
  /-- `open(path, 'wb')` is invoked. -/
  | openCall (path : String)
  /-- The destination handle was acquired; `'wb'` truncates the file. -/
  | openRet
  /-- `f.write(b)` is invoked with the whole buffer `b`. -/
  | writeCall (b : Bytes)
  /-- The write completed. -/
  | writeRet
  /-- The `with` block exited, releasing the handle. -/
  | close
  /-- `print(s)` emitted the line `s`. -/
  | printMsg (s : String)
deriving DecidableEq

/-- `true` exactly on `writeCall` events. -/
def Event.isWrite : Event → Bool
  | .writeCall _ => true
  | _ => false

/-- `true` exactly on `printMsg` events. -/
def Event.isPrint : Event → Bool
  | .printMsg _ => true
  | _ => false

/-- `true` exactly on the handle-acquisition event. -/
def Event.isOpenRet : Event → Bool
  | .openRet => true
  | _ => false

/-- `true` exactly on the handle-release event. -/
def Event.isClose : Event → Bool
  | .close => true
  | _ => false

/-- The outcome of running conv.py: the filesystem after the run, the
stdout lines, the event trace in program order, and the unhandled
exception if one was raised (`none` on success). -/
structure RunResult where
  fs : String → Option Bytes
  stdout : List String
  trace : List Event
  err : Option String

/-- Point update of a filesystem. -/
def fsSet (fs : String → Option Bytes) (p : String) (b : Bytes) :
    String → Option Bytes :=
  fun q => if q = p then some b else fs q

/-- Execution of the module body of conv.py, line by line. Python has no
exception handler here, so the first raised exception ends the run with
every later statement skipped; `'wb'` truncates the destination on a
successful open; the `with` block closes the handle whether or not the
write raises; the success message is printed only after the block exits. -/
def runScript (env : Env) : RunResult :=
  -- line 3: model = tf.keras.models.load_model('mobilenet_7.h5')
  match env.fs srcPath with
  | none =>
      { fs := env.fs, stdout := [], trace := [.loadCall srcPath],
        err := some "OSError: source model file not found" }
  | some srcBytes =>
    match env.parseModel srcBytes with
    | .error e =>
        { fs := env.fs, stdout := [], trace := [.loadCall srcPath],
          err := some e }
    | .ok model =>
      -- line 5: converter = tf.lite.TFLiteConverter.from_keras_model(model)
      let converter := fromKerasModel model
      -- line 6: tflite_model = converter.convert()
      match env.convert converter with
      | .error e =>
          { fs := env.fs, stdout := [],
            trace := [.loadCall srcPath, .loadRet model,
                      .convertCall converter],
            err := some e }
      | .ok tflite_model =>
        -- line 8: with open('fer_mobilenet.tflite', 'wb') as f:
        if env.openForWrite destPath then
          -- handle acquired; 'wb' truncates the destination file
          if env.writeRaises then
            -- line 9 raises; the with block still closes the handle,
            -- leaving the truncated file behind
            { fs := fsSet env.fs destPath [],
              stdout := [],
              trace := [.loadCall srcPath, .loadRet model,
                        .convertCall converter, .convertRet tflite_model,
                        .openCall destPath, .openRet,
                        .writeCall tflite_model, .close],
              err := some "OSError: write failed" }
          else
            -- line 9: f.write(tflite_model); block exits; line 11: print
            { fs := fsSet (fsSet env.fs destPath []) destPath tflite_model,
              stdout := [successMsg],
              trace := [.loadCall srcPath, .loadRet model,
                        .convertCall converter, .convertRet tflite_model,
                        .openCall destPath, .openRet,
                        .writeCall tflite_model, .writeRet, .close,
                        .printMsg successMsg],
              err := none }
        else
          { fs := env.fs, stdout := [],
            trace := [.loadCall srcPath, .loadRet model,
                      .convertCall converter, .convertRet tflite_model,
                      .openCall destPath],
            err := some "PermissionError: destination not writable" }

/-! ### Concrete environments used as witnesses -/

/-- A fixed model object. -/
def modelOk : Model := { repr := 0 }

/-- An environment in which every step succeeds. -/
def envOk : Env :=
  { fs := fun p => if p = srcPath then some [1, 2, 3] else none
  , parseModel := fun _ => .ok modelOk
  , convert := fun _ => .ok [7, 7, 7]
  , openForWrite := fun _ => true
  , writeRaises := false }

/-- Every step succeeds; the destination already holds `[9, 9]` and an
unrelated file exists. -/
def envPre : Env :=
  { fs := fun p =>
      if p = srcPath then some [1, 2, 3]
      else if p = destPath then some [9, 9]
      else if p = "other.txt" then some [4] else none
  , parseModel := fun _ => .ok modelOk
  , convert := fun _ => .ok [7, 7, 7]
  , openForWrite := fun _ => true
  , writeRaises := false }

/-- The source model file is absent. -/
def envNoSrc : Env :=
  { fs := fun _ => none
  , parseModel := fun _ => .ok modelOk
  , convert := fun _ => .ok [7, 7, 7]
  , openForWrite := fun _ => true
  , writeRaises := false }

/-- Valid source, but the destination cannot be opened for writing. -/
def envNoOpen : Env :=
  { fs := fun p => if p = srcPath then some [1, 2, 3] else none
  , parseModel := fun _ => .ok modelOk
  , convert := fun _ => .ok [7, 7, 7]
  , openForWrite := fun _ => false
  , writeRaises := false }

/-- Valid source and open, but the write raises. -/
def envWriteRaises : Env :=
  { fs := fun p => if p = srcPath then some [1, 2, 3] else none
  , parseModel := fun _ => .ok modelOk
  , convert := fun _ => .ok [7, 7, 7]
  , openForWrite := fun _ => true
  , writeRaises := true }

/-! ### Helper lemma: the shape of a successful run -/

/-- A run that raises no exception took the unique success path: the
source file existed and parsed, conversion succeeded, the destination
opened, the write completed, and the result is fully determined. -/
theorem runScript_success (env : Env) (h : (runScript env).err = none) :
    ∃ srcBytes m t,
      env.fs srcPath = some srcBytes ∧
      env.parseModel srcBytes = Except.ok m ∧
      env.convert (fromKerasModel m) = Except.ok t ∧
      env.openForWrite destPath = true ∧
      env.writeRaises = false ∧
      runScript env =
        { fs := fsSet (fsSet env.fs destPath []) destPath t
        , stdout := [successMsg]
        , trace := [.loadCall srcPath, .loadRet m,
                    .convertCall (fromKerasModel m), .convertRet t,
                    .openCall destPath, .openRet,
                    .writeCall t, .writeRet, .close,
                    .printMsg successMsg]
        , err := none } := by
  unfold runScript at h ⊢
  cases hfs : env.fs srcPath with
  | none => simp [hfs] at h
  | some srcBytes =>
    simp only [hfs] at h ⊢
    cases hp : env.parseModel srcBytes with
    | error e => simp [hp] at h
    | ok m =>
      simp only [hp] at h ⊢
      cases hc : env.convert (fromKerasModel m) with
      | error e => simp [hc] at h
      | ok t =>
        simp only [hc] at h ⊢
        cases ho : env.openForWrite destPath with
        | false => simp [ho] at h
        | true =>
          simp only [ho, if_true] at h ⊢
          cases hw : env.writeRaises with
          | true => simp [hw] at h
          | false =>
            simp only [hw] at h ⊢
            exact ⟨srcBytes, m, t, rfl, hp, hc, trivial, trivial, by simp⟩

/-- **C1.** On the success path the run is strictly sequential,
load → convert → write → notify, each step exactly once, in order,
none skipped or repeated. -/
theorem conv_sequential (env : Env) (h : (runScript env).err = none) :
    ∃ srcBytes m t,
      env.fs srcPath = some srcBytes ∧
      env.parseModel srcBytes = Except.ok m ∧
      env.convert (fromKerasModel m) = Except.ok t ∧
      (runScript env).trace =
        [.loadCall srcPath, .loadRet m,
         .convertCall (fromKerasModel m), .convertRet t,
         .openCall destPath, .openRet,
         .writeCall t, .writeRet, .close,
         .printMsg successMsg] := by
  obtain ⟨b, m, t, h1, h2, h3, _, _, heq⟩ := runScript_success env h
  exact ⟨b, m, t, h1, h2, h3, by rw [heq]⟩

/-- **C1 witness.** In `envOk` the run succeeds and the trace is the
canonical sequential one. -/
theorem conv_sequential_wit :
    (runScript envOk).err = none ∧
    ∃ srcBytes m t,
      envOk.fs srcPath = some srcBytes ∧
      envOk.parseModel srcBytes = Except.ok m ∧
      envOk.convert (fromKerasModel m) = Except.ok t ∧
      (runScript envOk).trace =
        [.loadCall srcPath, .loadRet m,
         .convertCall (fromKerasModel m), .convertRet t,
         .openCall destPath, .openRet,
         .writeCall t, .writeRet, .close,
         .printMsg successMsg] :=
  ⟨rfl, conv_sequential envOk rfl⟩

/-- **C2.** Determinism: two runs whose worlds agree on the source file
contents and on the library's behaviour (the fixed default-settings
conversion pipeline) write byte-identical destination files whenever
both succeed, whatever else (other files, pre-existing destination
content) differs between the two worlds. -/
theorem conv_deterministic (e1 e2 : Env)
    (hsrc : e1.fs srcPath = e2.fs srcPath)
    (hparse : e1.parseModel = e2.parseModel)
    (hconv : e1.convert = e2.convert)
    (h1 : (runScript e1).err = none)
    (h2 : (runScript e2).err = none) :
    (runScript e1).fs destPath = (runScript e2).fs destPath := by
  obtain ⟨b1, m1, t1, hf1, hp1, hc1, _, _, heq1⟩ := runScript_success e1 h1
  obtain ⟨b2, m2, t2, hf2, hp2, hc2, _, _, heq2⟩ := runScript_success e2 h2
  rw [hsrc, hf2] at hf1
  cases hf1
  rw [hparse, hp2] at hp1
  cases hp1
  rw [hconv, hc2] at hc1
  cases hc1
  rw [heq1, heq2]
  simp [fsSet]

/-- **C2 witness.** `envOk` and `envPre` agree on the source file and the
library but differ elsewhere (pre-existing destination file, extra
file); both runs succeed and write the same destination bytes. -/
theorem conv_deterministic_wit :
    envOk.fs srcPath = envPre.fs srcPath ∧
    envOk.parseModel = envPre.parseModel ∧
    envOk.convert = envPre.convert ∧
    (runScript envOk).err = none ∧
    (runScript envPre).err = none ∧
    (runScript envOk).fs destPath = (runScript envPre).fs destPath :=
  ⟨rfl, rfl, rfl, rfl, rfl,
    conv_deterministic envOk envPre rfl rfl rfl rfl rfl⟩

/-- **C3.** If the source model file is absent or does not parse as a
model, the run stops with an error right at the load: the filesystem is
completely untouched (no destination file created, no partial file) and
the trace shows the destination was never opened. -/
theorem load_failure_no_dest (env : Env)
    (h : env.fs srcPath = none ∨
      ∃ b e, env.fs srcPath = some b ∧ env.parseModel b = Except.error e) :
    (runScript env).err ≠ none ∧
    (runScript env).fs = env.fs ∧
    (runScript env).trace = [Event.loadCall srcPath] := by
  rcases h with h | ⟨b, e, hb, he⟩
  · refine ⟨?_, ?_, ?_⟩ <;> simp [runScript, h]
  · refine ⟨?_, ?_, ?_⟩ <;> simp [runScript, hb, he]

/-- **C3 witness.** In `envNoSrc` the source file is absent; the run
errors with the filesystem unchanged and only the load call traced. -/
theorem load_failure_no_dest_wit :
    (envNoSrc.fs srcPath = none ∨
      ∃ b e, envNoSrc.fs srcPath = some b ∧
        envNoSrc.parseModel b = Except.error e) ∧
    (runScript envNoSrc).err ≠ none ∧
    (runScript envNoSrc).fs = envNoSrc.fs ∧
    (runScript envNoSrc).trace = [Event.loadCall srcPath] :=
  ⟨Or.inl rfl, load_failure_no_dest envNoSrc (Or.inl rfl)⟩

/-- **C4.** With a valid source model and a destination that cannot be
opened for writing, the run errors; the trace shows conversion had
already returned before the failing open, nothing follows the open call,
and no byte was persisted: the filesystem is unchanged. -/
theorem open_failure_after_convert (env : Env) (b : Bytes) (m : Model)
    (t : Bytes)
    (hb : env.fs srcPath = some b)
    (hm : env.parseModel b = Except.ok m)
    (ht : env.convert (fromKerasModel m) = Except.ok t)
    (ho : env.openForWrite destPath = false) :
    (runScript env).err ≠ none ∧
    (runScript env).trace =
      [Event.loadCall srcPath, Event.loadRet m,
       Event.convertCall (fromKerasModel m), Event.convertRet t,
       Event.openCall destPath] ∧
    (runScript env).fs = env.fs := by
  refine ⟨?_, ?_, ?_⟩ <;> simp [runScript, hb, hm, ht, ho]

/-- **C4 witness.** In `envNoOpen` the source is valid but the
destination cannot be opened: the run errors after conversion with
nothing persisted. -/
theorem open_failure_after_convert_wit :
    envNoOpen.fs srcPath = some [1, 2, 3] ∧
    envNoOpen.parseModel [1, 2, 3] = Except.ok modelOk ∧
    envNoOpen.convert (fromKerasModel modelOk) = Except.ok [7, 7, 7] ∧
    envNoOpen.openForWrite destPath = false ∧
    ((runScript envNoOpen).err ≠ none ∧
     (runScript envNoOpen).trace =
       [Event.loadCall srcPath, Event.loadRet modelOk,
        Event.convertCall (fromKerasModel modelOk),
        Event.convertRet [7, 7, 7], Event.openCall destPath] ∧
     (runScript envNoOpen).fs = envNoOpen.fs) :=
  ⟨rfl, rfl, rfl, rfl,
    open_failure_after_convert envNoOpen [1, 2, 3] modelOk [7, 7, 7]
      rfl rfl rfl rfl⟩

/-- **C5.** Every failure is terminal: when a run errors, stdout is
empty (in particular the success line was never printed), no event is
ever repeated (no retry — the trace has no duplicates), and if the
destination handle had already been acquired, the truncated destination
file is simply left behind: no cleanup, no rollback. -/
theorem failure_terminal (env : Env) (h : (runScript env).err ≠ none) :
    (runScript env).stdout = [] ∧
    (∀ s, Event.printMsg s ∉ (runScript env).trace) ∧
    (runScript env).trace.Nodup ∧
    (Event.openRet ∈ (runScript env).trace →
      (runScript env).fs destPath = some []) := by
  unfold runScript at h ⊢
  cases hfs : env.fs srcPath with
  | none => simp only [hfs] at h ⊢; simp
  | some b =>
    simp only [hfs] at h ⊢
    cases hp : env.parseModel b with
    | error e => simp only [hp] at h ⊢; simp
    | ok m =>
      simp only [hp] at h ⊢
      cases hc : env.convert (fromKerasModel m) with
      | error e => simp only [hc] at h ⊢; simp
      | ok t =>
        simp only [hc] at h ⊢
        cases ho : env.openForWrite destPath with
        | false => simp only [ho] at h ⊢; simp [fsSet]
        | true =>
          simp only [ho, if_true] at h ⊢
          cases hw : env.writeRaises with
          | false => simp only [hw] at h; exact absurd rfl h
          | true => simp only [hw] at h ⊢; simp [fsSet]

/-- **C5 witness.** In `envWriteRaises` the write raises: the run errors
with empty stdout, a duplicate-free trace, and the truncated destination
left behind. -/
theorem failure_terminal_wit :
    (runScript envWriteRaises).err ≠ none ∧
    ((runScript envWriteRaises).stdout = [] ∧
     (∀ s, Event.printMsg s ∉ (runScript envWriteRaises).trace) ∧
     (runScript envWriteRaises).trace.Nodup ∧
     (Event.openRet ∈ (runScript envWriteRaises).trace →
       (runScript envWriteRaises).fs destPath = some [])) :=
  ⟨by simp [runScript, envWriteRaises],
    failure_terminal envWriteRaises (by simp [runScript, envWriteRaises])⟩

/-- **C6.** Scoped acquisition of the destination handle: in every run
the handle is released exactly as many times as it is acquired (so the
`with` block closes it on the success path and on the raising-write path
alike), at most one write call ever occurs, and on success the single
write call carries the entire converted buffer, which is exactly what
the destination file then contains. -/
theorem scoped_write (env : Env) :
    ((runScript env).trace.filter Event.isOpenRet).length =
      ((runScript env).trace.filter Event.isClose).length ∧
    ((runScript env).trace.filter Event.isWrite).length ≤ 1 ∧
    ((runScript env).err = none →
      ∃ t, (runScript env).trace.filter Event.isWrite =
          [Event.writeCall t] ∧
        (runScript env).fs destPath = some t) := by
  unfold runScript
  cases hfs : env.fs srcPath with
  | none => simp [hfs, Event.isOpenRet, Event.isClose, Event.isWrite]
  | some b =>
    simp only [hfs]
    cases hp : env.parseModel b with
    | error e => simp [hp, Event.isOpenRet, Event.isClose, Event.isWrite]
    | ok m =>
      simp only [hp]
      cases hc : env.convert (fromKerasModel m) with
      | error e => simp [hc, Event.isOpenRet, Event.isClose, Event.isWrite]
      | ok t =>
        simp only [hc]
        cases ho : env.openForWrite destPath with
        | false => simp [ho, Event.isOpenRet, Event.isClose, Event.isWrite]
        | true =>
          simp only [ho, if_true]
          cases hw : env.writeRaises with
          | false =>
            simp [hw, Event.isOpenRet, Event.isClose, Event.isWrite, fsSet]
          | true =>
            simp [hw, Event.isOpenRet, Event.isClose, Event.isWrite]

/-- **C6 witness.** The property instantiated at `envWriteRaises`: even
when the write raises, acquisitions and releases balance. -/
theorem scoped_write_wit :
    ((runScript envWriteRaises).trace.filter Event.isOpenRet).length =
      ((runScript envWriteRaises).trace.filter Event.isClose).length ∧
    ((runScript envWriteRaises).trace.filter Event.isWrite).length ≤ 1 ∧
    ((runScript envWriteRaises).err = none →
      ∃ t, (runScript envWriteRaises).trace.filter Event.isWrite =
          [Event.writeCall t] ∧
        (runScript envWriteRaises).fs destPath = some t) :=
  scoped_write envWriteRaises

/-- **C7.** Default settings only: every converter the script ever
invokes `convert` on carries the library defaults — no quantization
flags, no custom-op options, no signature overrides — and the script
consults no input besides the two hard-coded paths: every load targets
`srcPath` and every open targets `destPath`, whatever the environment. -/
theorem default_settings (env : Env) (ev : Event)
    (hev : ev ∈ (runScript env).trace) :
    (∀ c, ev = Event.convertCall c →
      c.config = defaultConfig ∧
      c.config.optimizations = [] ∧
      c.config.supportedOps = [] ∧
      c.config.signatureOverrides = []) ∧
    (∀ p, ev = Event.loadCall p → p = srcPath) ∧
    (∀ p, ev = Event.openCall p → p = destPath) := by
  unfold runScript at hev
  cases hfs : env.fs srcPath with
  | none =>
    simp only [hfs] at hev
    simp at hev
    subst hev
    simp [fromKerasModel, defaultConfig]
  | some b =>
    simp only [hfs] at hev
    cases hp : env.parseModel b with
    | error e =>
      simp only [hp] at hev
      simp at hev
      subst hev
      simp [fromKerasModel, defaultConfig]
    | ok m =>
      simp only [hp] at hev
      cases hcv : env.convert (fromKerasModel m) with
      | error e =>
        simp only [hcv] at hev
        simp at hev
        rcases hev with rfl | rfl | rfl <;>
          simp [fromKerasModel, defaultConfig]
      | ok t =>
        simp only [hcv] at hev
        cases ho : env.openForWrite destPath with
        | false =>
          simp only [ho] at hev
          simp at hev
          rcases hev with rfl | rfl | rfl | rfl | rfl <;>
            simp [fromKerasModel, defaultConfig]
        | true =>
          simp only [ho, if_true] at hev
          cases hw : env.writeRaises with
          | true =>
            simp only [hw] at hev
            simp at hev
            rcases hev with rfl | rfl | rfl | rfl | rfl | rfl | rfl | rfl <;>
              simp [fromKerasModel, defaultConfig]
          | false =>
            simp only [hw] at hev
            simp at hev
            rcases hev with
              rfl | rfl | rfl | rfl | rfl | rfl | rfl | rfl | rfl | rfl <;>
              simp [fromKerasModel, defaultConfig]

/-- **C7 witness.** The converter actually invoked in the all-success
environment carries the default configuration. -/
theorem default_settings_wit :
    Event.convertCall (fromKerasModel modelOk) ∈ (runScript envOk).trace ∧
    (fromKerasModel modelOk).config = defaultConfig ∧
    (fromKerasModel modelOk).config.optimizations = [] ∧
    (fromKerasModel modelOk).config.supportedOps = [] ∧
    (fromKerasModel modelOk).config.signatureOverrides = [] :=
  ⟨by simp [runScript, envOk],
    (default_settings envOk (Event.convertCall (fromKerasModel modelOk))
      (by simp [runScript, envOk])).1 (fromKerasModel modelOk) rfl⟩

/-- **C8.** On success the console output is exactly one line, the
literal success message, and the trace contains exactly that one print
event and no other. -/
theorem success_output (env : Env) (h : (runScript env).err = none) :
    (runScript env).stdout = [successMsg] ∧
    (runScript env).trace.filter Event.isPrint =
      [Event.printMsg successMsg] := by
  obtain ⟨b, m, t, _, _, _, _, _, heq⟩ := runScript_success env h
  rw [heq]
  exact ⟨rfl, by simp [Event.isPrint]⟩

/-- **C8 witness.** The all-success run prints exactly the success
line. -/
theorem success_output_wit :
    (runScript envOk).err = none ∧
    ((runScript envOk).stdout = [successMsg] ∧
     (runScript envOk).trace.filter Event.isPrint =
       [Event.printMsg successMsg]) :=
  ⟨rfl, success_output envOk rfl⟩

/-- **C9.** Frame effect on the destination: when a file already exists
at the destination path and the run acquires the handle, the old content
is unconditionally destroyed — afterwards the destination holds the
converted bytes (successful write) or is empty (truncated by the `'wb'`
open, then the write raised), never the old content's function; every
other path in the filesystem is left untouched. -/
theorem dest_overwritten (env : Env) (old : Bytes)
    (_hold : env.fs destPath = some old)
    (hopen : Event.openRet ∈ (runScript env).trace) :
    (∀ p, p ≠ destPath → (runScript env).fs p = env.fs p) ∧
    ((runScript env).err = none →
      ∃ t, (runScript env).trace.filter Event.isWrite =
          [Event.writeCall t] ∧
        (runScript env).fs destPath = some t) ∧
    ((runScript env).err ≠ none →
      (runScript env).fs destPath = some []) := by
  unfold runScript at hopen ⊢
  cases hfs : env.fs srcPath with
  | none => simp only [hfs] at hopen; simp at hopen
  | some b =>
    simp only [hfs] at hopen ⊢
    cases hp : env.parseModel b with
    | error e => simp only [hp] at hopen; simp at hopen
    | ok m =>
      simp only [hp] at hopen ⊢
      cases hc : env.convert (fromKerasModel m) with
      | error e => simp only [hc] at hopen; simp at hopen
      | ok t =>
        simp only [hc] at hopen ⊢
        cases ho : env.openForWrite destPath with
        | false => simp only [ho] at hopen; simp at hopen
        | true =>
          simp only [ho, if_true] at hopen ⊢
          cases hw : env.writeRaises with
          | false =>
            refine ⟨fun p hne => ?_, fun _ => ⟨t, ?_, ?_⟩, fun hne => ?_⟩
            · simp [fsSet, hne]
            · simp [Event.isWrite]
            · simp [fsSet]
            · simp at hne
          | true =>
            refine ⟨fun p hne => ?_, fun hnone => ?_, fun _ => ?_⟩
            · simp [fsSet, hne]
            · simp at hnone
            · simp [fsSet]

/-- **C9 witness.** `envPre` has `[9, 9]` at the destination before the
run; the successful run replaces it with the converted bytes and leaves
the unrelated file alone. -/
theorem dest_overwritten_wit :
    envPre.fs destPath = some [9, 9] ∧
    Event.openRet ∈ (runScript envPre).trace ∧
    ((∀ p, p ≠ destPath → (runScript envPre).fs p = envPre.fs p) ∧
     ((runScript envPre).err = none →
       ∃ t, (runScript envPre).trace.filter Event.isWrite =
           [Event.writeCall t] ∧
         (runScript envPre).fs destPath = some t) ∧
     ((runScript envPre).err ≠ none →
       (runScript envPre).fs destPath = some [])) :=
  ⟨rfl, by simp [runScript, envPre],
    dest_overwritten envPre [9, 9] rfl (by simp [runScript, envPre])⟩

/-- **C10.** The success message is emitted only after the `with` block
has exited: any print event is the very last event of the trace, the
handle-release and write-completion events strictly precede it, and at
that point the destination file already holds the full converted
buffer. -/
theorem print_after_close (env : Env) (s : String)
    (h : Event.printMsg s ∈ (runScript env).trace) :
    s = successMsg ∧
    ∃ pre, (runScript env).trace = pre ++ [Event.printMsg successMsg] ∧
      Event.close ∈ pre ∧ Event.writeRet ∈ pre ∧
      ∃ t, Event.writeCall t ∈ pre ∧
        (runScript env).fs destPath = some t := by
  unfold runScript at h ⊢
  cases hfs : env.fs srcPath with
  | none => simp only [hfs] at h; simp at h
  | some b =>
    simp only [hfs] at h ⊢
    cases hp : env.parseModel b with
    | error e => simp only [hp] at h; simp at h
    | ok m =>
      simp only [hp] at h ⊢
      cases hc : env.convert (fromKerasModel m) with
      | error e => simp only [hc] at h; simp at h
      | ok t =>
        simp only [hc] at h ⊢
        cases ho : env.openForWrite destPath with
        | false => simp only [ho] at h; simp at h
        | true =>
          simp only [ho, if_true] at h ⊢
          cases hw : env.writeRaises with
          | true => simp only [hw] at h; simp at h
          | false =>
            simp only [hw] at h ⊢
            simp at h
            refine ⟨h, ⟨[Event.loadCall srcPath, Event.loadRet m,
              Event.convertCall (fromKerasModel m), Event.convertRet t,
              Event.openCall destPath, Event.openRet,
              Event.writeCall t, Event.writeRet, Event.close], ?_, ?_, ?_,
              t, ?_, ?_⟩⟩ <;> simp [fsSet]

/-- **C10 witness.** In the all-success run the print event is preceded
by the close: instantiating the theorem at `envOk`. -/
theorem print_after_close_wit :
    Event.printMsg successMsg ∈ (runScript envOk).trace ∧
    (successMsg = successMsg ∧
     ∃ pre, (runScript envOk).trace = pre ++ [Event.printMsg successMsg] ∧
       Event.close ∈ pre ∧ Event.writeRet ∈ pre ∧
       ∃ t, Event.writeCall t ∈ pre ∧
         (runScript envOk).fs destPath = some t) :=
  ⟨by simp [runScript, envOk],
    print_after_close envOk successMsg (by simp [runScript, envOk])⟩

end EmotionDetector
